import Mathlib

set_option maxRecDepth 8000

/-!
Shallow embedding of `src/psmoveconfigtool/AppSubStage_CalibrateWithMat.cpp`
(PSMoveService calibration-with-mat sub-stage).  Machine floats are modelled
as rationals; external collaborators (device views, the OpenCV solver, the
GeometryUtility matrix/pose conversions that are not under `src/`) are
modelled as explicit oracle parameters of the environment.
-/

/-- PSMoveScreenLocation: a 2D pixel-space point (psmoveapi client geometry). -/
structure PSMoveScreenLocation where
  x : ℚ
  y : ℚ
deriving DecidableEq

/-- PSMoveScreenLocation::create. -/
def PSMoveScreenLocation.create (x y : ℚ) : PSMoveScreenLocation := ⟨x, y⟩

/-- PSMoveFloatVector2 (fields `i`, `j` as in the psmoveapi client geometry). -/
structure PSMoveFloatVector2 where
  i : ℚ
  j : ℚ
deriving DecidableEq

/-- PSMoveFloatVector2::create. -/
def PSMoveFloatVector2.create (i j : ℚ) : PSMoveFloatVector2 := ⟨i, j⟩

instance : Add PSMoveFloatVector2 := ⟨fun a b => ⟨a.i + b.i, a.j + b.j⟩⟩

/-- PSMoveFloatVector2::unsafe_divide: component-wise division. -/
def PSMoveFloatVector2.unsafe_divide (v : PSMoveFloatVector2) (n : ℚ) : PSMoveFloatVector2 :=
  ⟨v.i / n, v.j / n⟩

/-- PSMoveScreenLocation::toPSMoveFloatVector2. -/
def PSMoveScreenLocation.toPSMoveFloatVector2 (p : PSMoveScreenLocation) : PSMoveFloatVector2 :=
  ⟨p.x, p.y⟩

/-- PSMovePosition: a 3D position. -/
structure PSMovePosition where
  x : ℚ
  y : ℚ
  z : ℚ
deriving DecidableEq

/-- PSMoveFloatVector3 (fields `i`, `j`, `k` as in the psmoveapi client geometry). -/
structure PSMoveFloatVector3 where
  i : ℚ
  j : ℚ
  k : ℚ
deriving DecidableEq

instance : Add PSMoveFloatVector3 := ⟨fun a b => ⟨a.i + b.i, a.j + b.j, a.k + b.k⟩⟩

/-- PSMoveFloatVector3::unsafe_divide: component-wise division. -/
def PSMoveFloatVector3.unsafe_divide (v : PSMoveFloatVector3) (n : ℚ) : PSMoveFloatVector3 :=
  ⟨v.i / n, v.j / n, v.k / n⟩

/-- PSMoveFloatVector3::castToPSMovePosition. -/
def PSMoveFloatVector3.castToPSMovePosition (v : PSMoveFloatVector3) : PSMovePosition :=
  ⟨v.i, v.j, v.k⟩

/-- PSMovePosition::toPSMoveFloatVector3. -/
def PSMovePosition.toPSMoveFloatVector3 (p : PSMovePosition) : PSMoveFloatVector3 :=
  ⟨p.x, p.y, p.z⟩

/-- k_psmove_float_vector3_zero. -/
def k_psmove_float_vector3_zero : PSMoveFloatVector3 := ⟨0, 0, 0⟩

/-- PSMoveQuaternion (components w, x, y, z). -/
structure PSMoveQuaternion where
  w : ℚ
  x : ℚ
  y : ℚ
  z : ℚ
deriving DecidableEq

instance : Add PSMoveQuaternion := ⟨fun a b => ⟨a.w + b.w, a.x + b.x, a.y + b.y, a.z + b.z⟩⟩

/-- PSMoveQuaternion::unsafe_divide: component-wise division. -/
def PSMoveQuaternion.unsafe_divide (q : PSMoveQuaternion) (n : ℚ) : PSMoveQuaternion :=
  ⟨q.w / n, q.x / n, q.y / n, q.z / n⟩

/-- Squared euclidean norm of a quaternion, used for the degeneracy test. -/
def PSMoveQuaternion.normSq (q : PSMoveQuaternion) : ℚ :=
  q.w * q.w + q.x * q.x + q.y * q.y + q.z * q.z

/-- PSMoveQuaternion::normalize_with_default.  The C++ scales `q` by the
positive scalar `1/‖q‖` when `‖q‖ > 0` (giving a unit quaternion) and
returns `default` when the norm degenerates to zero.  Over ℚ the positive
scaling factor is not representable, so we keep the positive-scalar
direction representative: the zero test and the fallback are exact, and
every property stated in this development depends only on which vector is
normalized, never on its length. -/
def PSMoveQuaternion.normalize_with_default (q default : PSMoveQuaternion) : PSMoveQuaternion :=
  if q.normSq = 0 then default else q

/-- k_psmove_quaternion_identity. -/
def k_psmove_quaternion_identity : PSMoveQuaternion := ⟨1, 0, 0, 0⟩

/-- PSMovePose: orientation plus position. -/
structure PSMovePose where
  Orientation : PSMoveQuaternion
  Position : PSMovePosition
deriving DecidableEq

/-- k_psmove_pose_identity. -/
def k_psmove_pose_identity : PSMovePose := ⟨k_psmove_quaternion_identity, ⟨0, 0, 0⟩⟩

/-- 3×3 rational matrix (camera intrinsics, rotation matrices). -/
abbrev Mat3 := Matrix (Fin 3) (Fin 3) ℚ

/-- 4×4 rational matrix (glm::mat4 rigid transforms). -/
abbrev Mat4 := Matrix (Fin 4) (Fin 4) ℚ

/-- glm::inverse on 4×4 matrices, modelled as the rational matrix inverse
computed from the adjugate and the determinant. -/
def matInv (A : Mat4) : Mat4 := (A.det)⁻¹ • A.adjugate

/-- Rotation matrix of a quaternion (standard homogeneous conversion used by
glm).  Modelled from the spec: `GeometryUtility`'s pose-to-matrix conversion
is not under `src/`; §4.3 describes it as composing the orientation and
position into a rigid transform. -/
def psmove_quaternion_to_mat3 (q : PSMoveQuaternion) : Mat3 :=
  Matrix.of
    ![![1 - 2 * (q.y * q.y + q.z * q.z), 2 * (q.x * q.y - q.w * q.z), 2 * (q.x * q.z + q.w * q.y)],
      ![2 * (q.x * q.y + q.w * q.z), 1 - 2 * (q.x * q.x + q.z * q.z), 2 * (q.y * q.z - q.w * q.x)],
      ![2 * (q.x * q.z - q.w * q.y), 2 * (q.y * q.z + q.w * q.x), 1 - 2 * (q.x * q.x + q.y * q.y)]]

/-- psmove_pose_to_glm_mat4 (orientation, position overload).  Modelled from
the spec: `GeometryUtility` is not under `src/`; the rigid transform has the
quaternion's rotation matrix in the upper-left block and the position in the
last column, applied to column vectors by left multiplication. -/
def psmove_pose_to_glm_mat4 (q : PSMoveQuaternion) (p : PSMovePosition) : Mat4 :=
  Matrix.of fun i j =>
    if hi : (i : ℕ) < 3 then
      if hj : (j : ℕ) < 3 then psmove_quaternion_to_mat3 q ⟨i, hi⟩ ⟨j, hj⟩
      else ![p.x, p.y, p.z] ⟨i, hi⟩
    else if (j : ℕ) < 3 then 0 else 1

/-- psmove_pose_to_glm_mat4 (PSMovePose overload). -/
def psmove_pose_to_glm_mat4_ofPose (pose : PSMovePose) : Mat4 :=
  psmove_pose_to_glm_mat4 pose.Orientation pose.Position

/-- k_stabilize_wait_time_ms = 1000. -/
def k_stabilize_wait_time_ms : ℚ := 1000

/-- k_mat_sample_location_count = 5 (four corners plus center). -/
def k_mat_sample_location_count : ℕ := 5

/-- k_height_to_psmove_bulb_center. -/
def k_height_to_psmove_bulb_center : ℚ := 177 / 10

/-- k_sample_x_location_offset. -/
def k_sample_x_location_offset : ℚ := 14

/-- k_sample_z_location_offset. -/
def k_sample_z_location_offset : ℚ := 43 / 4

/-- k_sample_3d_locations: the five fixed 3D calibration-mat positions.
Modelled as a total function on ℕ; indices past 4 (an out-of-bounds read in
the C++) return the zero position. -/
def k_sample_3d_locations : ℕ → PSMovePosition
  | 0 => ⟨k_sample_x_location_offset, k_height_to_psmove_bulb_center, k_sample_z_location_offset⟩
  | 1 => ⟨-k_sample_x_location_offset, k_height_to_psmove_bulb_center, k_sample_z_location_offset⟩
  | 2 => ⟨0, k_height_to_psmove_bulb_center, 0⟩
  | 3 => ⟨-k_sample_x_location_offset, k_height_to_psmove_bulb_center, -k_sample_z_location_offset⟩
  | 4 => ⟨k_sample_x_location_offset, k_height_to_psmove_bulb_center, -k_sample_z_location_offset⟩
  | _ + 5 => ⟨0, 0, 0⟩

/-- PS3EYETrackerPoseContext: per-tracker sample buffers and solve results.
The fixed-capacity C arrays are modelled as total functions on ℕ. -/
structure PS3EYETrackerPoseContext where
  screenSpacePoints : ℕ → PSMoveScreenLocation
  screenSpacePointCount : ℕ
  avgScreenSpacePointAtLocation : ℕ → PSMoveScreenLocation
  bValidTrackerPose : Bool
  reprojectionError : ℚ
  trackerPose : PSMovePose
  hmdCameraRelativeTrackerPose : PSMovePose

/-- A zeroed per-tracker context (fresh session). -/
def PS3EYETrackerPoseContext.zero : PS3EYETrackerPoseContext :=
  { screenSpacePoints := fun _ => ⟨0, 0⟩
    screenSpacePointCount := 0
    avgScreenSpacePointAtLocation := fun _ => ⟨0, 0⟩
    bValidTrackerPose := false
    reprojectionError := 0
    trackerPose := k_psmove_pose_identity
    hmdCameraRelativeTrackerPose := k_psmove_pose_identity }

/-- HMDTrackerPoseContext: the singleton head-reference sample buffer. -/
structure HMDTrackerPoseContext where
  worldSpacePoints : ℕ → PSMovePosition
  worldSpaceOrientations : ℕ → PSMoveQuaternion
  worldSpaceSampleCount : ℕ
  avgHMDWorldSpacePoint : PSMovePosition
  avgHMDWorldSpaceOrientation : PSMoveQuaternion

/-- HMDTrackerPoseContext::clear.  Modelled from the spec: the context's
declaration is not under `src/`; §4.2 says the reset operation clears all
counts and buffers. -/
def HMDTrackerPoseContext.clear : HMDTrackerPoseContext :=
  { worldSpacePoints := fun _ => ⟨0, 0, 0⟩
    worldSpaceOrientations := fun _ => k_psmove_quaternion_identity
    worldSpaceSampleCount := 0
    avgHMDWorldSpacePoint := ⟨0, 0, 0⟩
    avgHMDWorldSpaceOrientation := k_psmove_quaternion_identity }

/-- AppSubStage_CalibrateWithMat::eMenuState. -/
inductive eMenuState where
  | initial
  | calibrationStepPlacePSMove
  | calibrationStepRecordPSMove
  | calibrationStepPlaceHMD
  | calibrationStepRecordHMD
  | calibrationStepComputeTrackerPoses
  | calibrateStepSuccess
  | calibrateStepFailed
deriving DecidableEq

/-- The mutable state of AppSubStage_CalibrateWithMat. -/
structure CalibState where
  m_menuState : eMenuState
  m_bIsStable : Bool
  m_stableStartTime : ℚ
  m_sampleLocationIndex : ℕ
  m_psmoveTrackerPoseContexts : ℕ → PS3EYETrackerPoseContext
  m_hmdTrackerPoseContext : HMDTrackerPoseContext

/-- Fixed collaborators of the sub-stage: the tracker collection owned by the
parent stage, the per-tracker intrinsics, whether a head device is
configured, the sample count per location (`k_mat_calibration_sample_count`,
declared in a header that is not under `src/` and therefore kept as a
parameter), and the external OpenCV / GeometryUtility routines (§6 of the
spec) as oracle functions. -/
structure Env where
  trackerCount : ℕ
  sampleCountN : ℕ
  hmdPresent : Bool
  trackerPixelExtents : ℕ → PSMoveFloatVector2
  trackerIntrinsicMatrix : ℕ → Mat3
  solvePnP : List (ℚ × ℚ × ℚ) → List (ℚ × ℚ) → Mat3 → List ℚ →
    Option ((Fin 3 → ℚ) × (Fin 3 → ℚ))
  projectPoints : List (ℚ × ℚ × ℚ) → (Fin 3 → ℚ) → (Fin 3 → ℚ) → Mat3 → List ℚ →
    List (ℚ × ℚ)
  rodrigues : (Fin 3 → ℚ) → Mat3
  glm_mat4_to_psmove_pose : Mat4 → PSMovePose

/-- The live signals read during one tick of AppSubStage_CalibrateWithMat::update. -/
structure TickInput where
  now : ℚ
  ctlIsStableAndAlignedWithGravity : Bool
  ctlIsCurrentlyTracking : Bool
  ctlPixelLocationOnTracker : ℕ → Option PSMoveScreenLocation
  hmdIsStableAndAlignedWithGravity : Bool
  hmdIsTracking : Bool
  hmdPose : PSMovePose
  hmdTrackerPose : PSMovePose

/-- The stability dwell logic shared by calibrationStepPlacePSMove
(lines 92–117) and calibrationStepPlaceHMD (lines 230–255): given the
current `m_bIsStable` flag and `m_stableStartTime`, the clock reading and
the per-tick stability signal, it returns the updated flag, the updated
start time, and whether the dwell threshold fired this tick. -/
def stabilityObserve (bIsStable : Bool) (stableStartTime : ℚ) (now : ℚ)
    (isStableNow : Bool) : Bool × ℚ × Bool :=
  if isStableNow then
    if bIsStable then
      if now - stableStartTime ≥ k_stabilize_wait_time_ms then
        (bIsStable, stableStartTime, true)
      else
        (bIsStable, stableStartTime, false)
    else
      (true, now, false)
  else
    if bIsStable then (false, stableStartTime, false) else (bIsStable, stableStartTime, false)

/-- One tracker's slice of the calibrationStepRecordPSMove sampling loop
(lines 147–186): append the controller's screen-space projection when the
controller is tracked, the tracker reports a pixel location and the buffer
is not yet full; when the buffer just filled, run the averaging loop over
`screenSpacePoints[sampleCount]` (the C++ reads the fixed index
`sampleCount`, not the loop variable) and store the result for the current
mat location. -/
def recordSampleForTracker (env : Env) (inp : TickInput) (locationIndex : ℕ)
    (trackerIndex : ℕ) (ctx : PS3EYETrackerPoseContext) : PS3EYETrackerPoseContext :=
  match inp.ctlPixelLocationOnTracker trackerIndex with
  | none => ctx
  | some screenSample =>
    if inp.ctlIsCurrentlyTracking ∧ ctx.screenSpacePointCount < env.sampleCountN then
      let sampleCount := ctx.screenSpacePointCount
      let pts := Function.update ctx.screenSpacePoints sampleCount screenSample
      let ctx1 := { ctx with screenSpacePoints := pts, screenSpacePointCount := sampleCount + 1 }
      if ctx1.screenSpacePointCount ≥ env.sampleCountN then
        let N : ℚ := (env.sampleCountN : ℚ)
        let avg :=
          ((List.range env.sampleCountN).foldl
            (fun acc _ => acc + (pts sampleCount).toPSMoveFloatVector2)
            (PSMoveFloatVector2.create 0 0)).unsafe_divide N
        { ctx1 with
          avgScreenSpacePointAtLocation :=
            Function.update ctx1.avgScreenSpacePointAtLocation locationIndex
              (PSMoveScreenLocation.create avg.i avg.j) }
      else
        ctx1
    else
      ctx

/-- AppSubStage_CalibrateWithMat::onEnterState (lines 621–659).  Entering
calibrationStepPlacePSMove zeroes every tracker's sample count, resets the
mat-location index to 0, clears the stability flag and clears the HMD
context; entering calibrationStepPlaceHMD clears the stability flag and the
HMD sample count; every other state has no entry effect. -/
def onEnterState (env : Env) (s : CalibState) (newState : eMenuState) : CalibState :=
  match newState with
  | .calibrationStepPlacePSMove =>
    { s with
      m_psmoveTrackerPoseContexts := fun i =>
        if i < env.trackerCount then
          { s.m_psmoveTrackerPoseContexts i with screenSpacePointCount := 0 }
        else
          s.m_psmoveTrackerPoseContexts i
      m_sampleLocationIndex := 0
      m_bIsStable := false
      m_hmdTrackerPoseContext := HMDTrackerPoseContext.clear }
  | .calibrationStepPlaceHMD =>
    { s with
      m_bIsStable := false
      m_hmdTrackerPoseContext :=
        { s.m_hmdTrackerPoseContext with worldSpaceSampleCount := 0 } }
  | _ => s

/-- AppSubStage_CalibrateWithMat::setState (lines 591–600): when the new
state differs, run the (no-op) exit hook and the entry hook, then change
the menu state. -/
def setState (env : Env) (s : CalibState) (newState : eMenuState) : CalibState :=
  if newState = s.m_menuState then s
  else { onEnterState env s newState with m_menuState := newState }

/-- The calibrationStepRecordPSMove branch of update (lines 122–227). -/
def updateRecordPSMove (env : Env) (inp : TickInput) (s : CalibState) : CalibState :=
  let bIsStable := inp.ctlIsStableAndAlignedWithGravity
  let bNeedMoreSamples :=
    (List.range env.trackerCount).any fun i =>
      (s.m_psmoveTrackerPoseContexts i).screenSpacePointCount < env.sampleCountN
  if bNeedMoreSamples then
    if bIsStable then
      { s with
        m_psmoveTrackerPoseContexts := fun i =>
          if i < env.trackerCount then
            recordSampleForTracker env inp s.m_sampleLocationIndex i
              (s.m_psmoveTrackerPoseContexts i)
          else
            s.m_psmoveTrackerPoseContexts i }
    else
      setState env s .calibrationStepPlacePSMove
  else
    if ¬ bIsStable then
      let s1 := { s with m_sampleLocationIndex := s.m_sampleLocationIndex + 1 }
      if s1.m_sampleLocationIndex < k_mat_sample_location_count then
        setState env s1 .calibrationStepPlacePSMove
      else
        if env.hmdPresent then
          setState env s1 .calibrationStepPlaceHMD
        else
          setState env s1 .calibrateStepSuccess
    else
      s

/-- The calibrationStepRecordHMD branch of update (lines 257–309).  The
averaging loop reads `worldSpacePoints[sampleCount]` and
`worldSpaceOrientations[sampleCount]` (the fixed index, not the loop
variable), and the orientation accumulator starts from the identity
quaternion. -/
def updateRecordHMD (env : Env) (inp : TickInput) (s : CalibState) : CalibState :=
  if inp.hmdIsStableAndAlignedWithGravity then
    if inp.hmdIsTracking ∧
        s.m_hmdTrackerPoseContext.worldSpaceSampleCount < k_mat_sample_location_count then
      let sampleCount := s.m_hmdTrackerPoseContext.worldSpaceSampleCount
      let pose := inp.hmdPose
      let pts := Function.update s.m_hmdTrackerPoseContext.worldSpacePoints sampleCount pose.Position
      let oris := Function.update s.m_hmdTrackerPoseContext.worldSpaceOrientations sampleCount pose.Orientation
      let h1 :=
        { s.m_hmdTrackerPoseContext with
          worldSpacePoints := pts
          worldSpaceOrientations := oris
          worldSpaceSampleCount := sampleCount + 1 }
      if h1.worldSpaceSampleCount ≥ k_mat_sample_location_count then
        let N : ℚ := (k_mat_sample_location_count : ℚ)
        let avgPosition :=
          (List.range k_mat_sample_location_count).foldl
            (fun acc _ => acc + (pts sampleCount).toPSMoveFloatVector3)
            k_psmove_float_vector3_zero
        let avgOrientation :=
          (List.range k_mat_sample_location_count).foldl
            (fun acc _ => acc + oris sampleCount)
            k_psmove_quaternion_identity
        let h2 :=
          { h1 with
            avgHMDWorldSpacePoint := (avgPosition.unsafe_divide N).castToPSMovePosition
            avgHMDWorldSpaceOrientation :=
              (avgOrientation.unsafe_divide N).normalize_with_default
                k_psmove_quaternion_identity }
        setState env { s with m_hmdTrackerPoseContext := h2 } .calibrationStepComputeTrackerPoses
      else
        { s with m_hmdTrackerPoseContext := h1 }
    else
      s
  else
    setState env s .calibrationStepPlaceHMD

/-- computePSMoveTrackerToHMDTrackerSpaceTransform (lines 664–708): invert
the HMD camera-to-tracking pose, build the rigid transform of the averaged
HMD pose recorded at the calibration origin, invert the calibration-offset
transform, and multiply the three (right to left application order).  The
C++ reads the HMD tracker pose from the HMD view; here it is passed as a
pose. -/
def computePSMoveTrackerToHMDTrackerSpaceTransform (hmdTrackerPose : PSMovePose)
    (psmoveCalibrationOffset : PSMovePose)
    (hmdTrackerPoseContext : HMDTrackerPoseContext) : Mat4 :=
  let hmdCameraToHmdTrackingSpace := psmove_pose_to_glm_mat4_ofPose hmdTrackerPose
  let hmdTrackingToHmdCameraSpace := matInv hmdCameraToHmdTrackingSpace
  let psmoveCalibrationToHmdTrackingSpace :=
    psmove_pose_to_glm_mat4 hmdTrackerPoseContext.avgHMDWorldSpaceOrientation
      hmdTrackerPoseContext.avgHMDWorldSpacePoint
  let psmoveCalibrationToPSMoveTrackingSpace := psmove_pose_to_glm_mat4_ofPose psmoveCalibrationOffset
  let psmoveTrackingToPSMoveCalibrationSpace := matInv psmoveCalibrationToPSMoveTrackingSpace
  hmdTrackingToHmdCameraSpace * psmoveCalibrationToHmdTrackingSpace *
    psmoveTrackingToPSMoveCalibrationSpace

/-- cvDistCoeffs: distortion is assumed zero (lines 742–746). -/
def cvDistCoeffs : List ℚ := [0, 0, 0, 0]

/-- cvObjectPoints built in computeTrackerCameraPose (lines 724–738): the
loop runs over `k_mat_calibration_sample_count` (the sample count, not the
location count). -/
def cvObjectPoints (env : Env) : List (ℚ × ℚ × ℚ) :=
  (List.range env.sampleCountN).map fun locationIndex =>
    ((k_sample_3d_locations locationIndex).x,
     (k_sample_3d_locations locationIndex).y,
     (k_sample_3d_locations locationIndex).z)

/-- cvImagePoints built in computeTrackerCameraPose (lines 724–738): the
averaged screen points with the pixel y coordinate flipped against the
tracker's pixel height. -/
def cvImagePoints (env : Env) (trackerIndex : ℕ)
    (trackerCoregData : PS3EYETrackerPoseContext) : List (ℚ × ℚ) :=
  (List.range env.sampleCountN).map fun locationIndex =>
    ((trackerCoregData.avgScreenSpacePointAtLocation locationIndex).x,
     (env.trackerPixelExtents trackerIndex).j -
       (trackerCoregData.avgScreenSpacePointAtLocation locationIndex).y)

/-- computeTrackerCameraPose (lines 710–812).  On solver failure only
`bValidTrackerPose` is written (to false) and false is returned.  On
success the re-projection error loop overwrites (not accumulates) the
error, so the stored value is the last correspondence's squared error; the
solved rotation is transposed and the translation inverted to store the
camera pose in tracking space, and the HMD-relative pose premultiplies the
composed space transform. -/
def computeTrackerCameraPose (env : Env) (trackerIndex : ℕ)
    (psmoveTrackerToHmdTrackerSpace : Mat4)
    (trackerCoregData : PS3EYETrackerPoseContext) : PS3EYETrackerPoseContext × Bool :=
  let cvCameraMatrix := env.trackerIntrinsicMatrix trackerIndex
  let objectPoints := cvObjectPoints env
  let imagePoints := cvImagePoints env trackerIndex trackerCoregData
  match env.solvePnP objectPoints imagePoints cvCameraMatrix cvDistCoeffs with
  | none => ({ trackerCoregData with bValidTrackerPose := false }, false)
  | some (rvec, tvec) =>
    let projectedPoints := env.projectPoints objectPoints rvec tvec cvCameraMatrix cvDistCoeffs
    let reprojErr :=
      (imagePoints.zip projectedPoints).foldl
        (fun _ pq =>
          let xError := pq.1.1 - pq.2.1
          let yError := pq.1.2 - pq.2.2
          xError * xError + yError * yError)
        0
    let R := env.rodrigues rvec
    let R_inv := R.transpose
    let tvecInv : Fin 3 → ℚ := fun i => -(R_inv.mulVec tvec i)
    let trackerXform : Mat4 :=
      Matrix.of fun i j =>
        if hi : (i : ℕ) < 3 then
          if hj : (j : ℕ) < 3 then R ⟨j, hj⟩ ⟨i, hi⟩
          else tvecInv ⟨i, hi⟩
        else if (j : ℕ) < 3 then 0 else 1
    ({ trackerCoregData with
        bValidTrackerPose := true
        reprojectionError := reprojErr
        trackerPose := env.glm_mat4_to_psmove_pose trackerXform
        hmdCameraRelativeTrackerPose :=
          env.glm_mat4_to_psmove_pose (psmoveTrackerToHmdTrackerSpace * trackerXform) },
      true)

/-- The space transform computed at the top of the
calibrationStepComputeTrackerPoses branch (lines 314–325): identity when no
HMD view exists, otherwise the composed transform with the identity
calibration offset. -/
def computePosesTransform (env : Env) (inp : TickInput) (s : CalibState) : Mat4 :=
  if env.hmdPresent then
    computePSMoveTrackerToHMDTrackerSpaceTransform inp.hmdTrackerPose
      k_psmove_pose_identity s.m_hmdTrackerPoseContext
  else
    1

/-- One iteration of the solve loop of calibrationStepComputeTrackerPoses
(lines 328–337): the loop condition `bSuccess && iter != end` stops the
iteration after the first failure, and `bSuccess &= computeTrackerCameraPose`
folds each processed tracker's result into the success flag. -/
def solveFoldStep (env : Env) (M : Mat4)
    (acc : (ℕ → PS3EYETrackerPoseContext) × Bool) (i : ℕ) :
    (ℕ → PS3EYETrackerPoseContext) × Bool :=
  if acc.2 then
    let r := computeTrackerCameraPose env i M (acc.1 i)
    (Function.update acc.1 i r.1, acc.2 && r.2)
  else
    acc

/-- The calibrationStepComputeTrackerPoses branch of update (lines 310–366):
returns the updated state and the list of (trackerIndex, trackerPose,
hmdCameraRelativeTrackerPose) reports handed to request_set_tracker_pose. -/
def updateComputeTrackerPoses (env : Env) (inp : TickInput) (s : CalibState) :
    CalibState × List (ℕ × PSMovePose × PSMovePose) :=
  let M := computePosesTransform env inp s
  let res :=
    (List.range env.trackerCount).foldl (solveFoldStep env M)
      (s.m_psmoveTrackerPoseContexts, true)
  let bSuccess := res.2
  let reports :=
    if bSuccess then
      (List.range env.trackerCount).map fun i =>
        (i, (res.1 i).trackerPose, (res.1 i).hmdCameraRelativeTrackerPose)
    else
      []
  let s1 := { s with m_psmoveTrackerPoseContexts := res.1 }
  if bSuccess then
    (setState env s1 .calibrateStepSuccess, reports)
  else
    (setState env s1 .calibrateStepFailed, reports)

/-- AppSubStage_CalibrateWithMat::update (lines 78–374), one tick of the
state machine.  The second component is the list of tracker pose reports
issued during the tick. -/
def update (env : Env) (inp : TickInput) (s : CalibState) :
    CalibState × List (ℕ × PSMovePose × PSMovePose) :=
  match s.m_menuState with
  | .initial => (setState env s .calibrationStepPlacePSMove, [])
  | .calibrationStepPlacePSMove =>
    let r := stabilityObserve s.m_bIsStable s.m_stableStartTime inp.now
      inp.ctlIsStableAndAlignedWithGravity
    let s1 := { s with m_bIsStable := r.1, m_stableStartTime := r.2.1 }
    (if r.2.2 then setState env s1 .calibrationStepRecordPSMove else s1, [])
  | .calibrationStepRecordPSMove => (updateRecordPSMove env inp s, [])
  | .calibrationStepPlaceHMD =>
    let r := stabilityObserve s.m_bIsStable s.m_stableStartTime inp.now
      inp.hmdIsStableAndAlignedWithGravity
    let s1 := { s with m_bIsStable := r.1, m_stableStartTime := r.2.1 }
    (if r.2.2 then setState env s1 .calibrationStepRecordHMD else s1, [])
  | .calibrationStepRecordHMD => (updateRecordHMD env inp s, [])
  | .calibrationStepComputeTrackerPoses => updateComputeTrackerPoses env inp s
  | .calibrateStepSuccess => (s, [])
  | .calibrateStepFailed => (s, [])

/-- The state at construction (menu state `initial`, everything zeroed;
enter() then drives the machine into calibrationStepPlacePSMove on the
first tick). -/
def initialCalibState : CalibState :=
  { m_menuState := .initial
    m_bIsStable := false
    m_stableStartTime := 0
    m_sampleLocationIndex := 0
    m_psmoveTrackerPoseContexts := fun _ => PS3EYETrackerPoseContext.zero
    m_hmdTrackerPoseContext := HMDTrackerPoseContext.clear }

/-- States reachable from construction through update ticks and the
user-triggered restart (setState back to `initial`, as the Restart
Calibration buttons and exit() do). -/
inductive Reachable (env : Env) : CalibState → Prop
  | init : Reachable env initialCalibState
  | step (inp : TickInput) {s : CalibState} :
      Reachable env s → Reachable env (update env inp s).1
  | restart {s : CalibState} :
      Reachable env s → Reachable env (setState env s .initial)

/-- Specified dwell condition (§4.1/§8 of the spec): at tick `k` the
stability signal is true and has been continuously true since some earlier
tick `j` whose clock reading lies at least the dwell duration in the past. -/
def dwellSpecProp (sig : ℕ → Bool) (tm : ℕ → ℚ) (k : ℕ) : Prop :=
  sig k = true ∧
    ∃ j, j ≤ k ∧ (∀ m, j ≤ m → m ≤ k → sig m = true) ∧
      tm k - tm j ≥ k_stabilize_wait_time_ms

instance (sig : ℕ → Bool) (tm : ℕ → ℚ) (k : ℕ) : Decidable (dwellSpecProp sig tm k) := by
  unfold dwellSpecProp
  have : (∃ j, j ≤ k ∧ (∀ m, j ≤ m → m ≤ k → sig m = true) ∧
      tm k - tm j ≥ k_stabilize_wait_time_ms) ↔
      (∃ j ∈ Finset.range (k + 1), (∀ m ∈ Finset.range (k + 1), j ≤ m → sig m = true) ∧
        tm k - tm j ≥ k_stabilize_wait_time_ms) := by
    constructor
    · rintro ⟨j, hj, hstreak, hge⟩
      exact ⟨j, Finset.mem_range.mpr (Nat.lt_succ_of_le hj),
        fun m hm hjm => hstreak m hjm (Nat.lt_succ_iff.mp (Finset.mem_range.mp hm)), hge⟩
    · rintro ⟨j, hj, hstreak, hge⟩
      exact ⟨j, Nat.lt_succ_iff.mp (Finset.mem_range.mp hj),
        fun m hjm hmk => hstreak m (Finset.mem_range.mpr (Nat.lt_succ_of_le hmk)) hjm, hge⟩
  exact decidable_of_iff _ (and_congr_right fun _ => this.symm)

/-- Start index of the current streak of true signals ending at `k`. -/
def sStart (sig : ℕ → Bool) : ℕ → ℕ
  | 0 => 0
  | k + 1 => if sig k then sStart sig k else k + 1

/-- The (m_bIsStable, m_stableStartTime) pair before tick `n` under the pure
stability-observation iteration started from a fresh placement entry. -/
def obsState (sig : ℕ → Bool) (tm : ℕ → ℚ) : ℕ → Bool × ℚ
  | 0 => (false, 0)
  | n + 1 =>
    let r := stabilityObserve (obsState sig tm n).1 (obsState sig tm n).2 (tm n) (sig n)
    (r.1, r.2.1)

/-- Whether the dwell threshold fires at tick `n` of the pure iteration. -/
def obsReport (sig : ℕ → Bool) (tm : ℕ → ℚ) (n : ℕ) : Bool :=
  (stabilityObserve (obsState sig tm n).1 (obsState sig tm n).2 (tm n) (sig n)).2.2

/-- A tick input carrying only the controller stability signal and clock. -/
def ctlInput (t : ℚ) (b : Bool) : TickInput :=
  { now := t
    ctlIsStableAndAlignedWithGravity := b
    ctlIsCurrentlyTracking := false
    ctlPixelLocationOnTracker := fun _ => none
    hmdIsStableAndAlignedWithGravity := false
    hmdIsTracking := false
    hmdPose := k_psmove_pose_identity
    hmdTrackerPose := k_psmove_pose_identity }

/-- The state right after entering calibrationStepPlacePSMove from a fresh
session. -/
def placeEntryState (env : Env) : CalibState :=
  setState env initialCalibState .calibrationStepPlacePSMove

/-- Run of the machine from a fresh placement entry under a stream of
controller stability observations. -/
def placeRun (env : Env) (sig : ℕ → Bool) (tm : ℕ → ℚ) : ℕ → CalibState
  | 0 => placeEntryState env
  | n + 1 => (update env (ctlInput (tm n) (sig n)) (placeRun env sig tm n)).1

/-- Whether computeTrackerCameraPose succeeds for tracker `j` run on its
pre-tick context. -/
def solveOK (env : Env) (M : Mat4) (s : CalibState) (j : ℕ) : Bool :=
  (computeTrackerCameraPose env j M (s.m_psmoveTrackerPoseContexts j)).2

/-- Whether every tracker before `i` solves successfully (so that the solve
loop still runs when it reaches tracker `i`). -/
def prefixOK (env : Env) (M : Mat4) (s : CalibState) (i : ℕ) : Bool :=
  (List.range i).all (solveOK env M s)

theorem floatVector2_add_def (a b : PSMoveFloatVector2) :
    a + b = ⟨a.i + b.i, a.j + b.j⟩ := rfl

theorem floatVector3_add_def (a b : PSMoveFloatVector3) :
    a + b = ⟨a.i + b.i, a.j + b.j, a.k + b.k⟩ := rfl

theorem quaternion_add_def (a b : PSMoveQuaternion) :
    a + b = ⟨a.w + b.w, a.x + b.x, a.y + b.y, a.z + b.z⟩ := rfl

/-- An environment with trivial oracles, one tracker and two samples per
location. -/
def envC1 : Env :=
  { trackerCount := 1
    sampleCountN := 2
    hmdPresent := false
    trackerPixelExtents := fun _ => ⟨0, 0⟩
    trackerIntrinsicMatrix := fun _ => 1
    solvePnP := fun _ _ _ _ => none
    projectPoints := fun _ _ _ _ _ => []
    rodrigues := fun _ => 1
    glm_mat4_to_psmove_pose := fun _ => k_psmove_pose_identity }

/-- A freshly entered recording state. -/
def stC1 : CalibState :=
  { initialCalibState with m_menuState := .calibrationStepRecordPSMove }

/-- First recording tick: stable, tracked, pixel sample (0, 0). -/
def inpC1a : TickInput :=
  { ctlInput 0 true with
    ctlIsCurrentlyTracking := true
    ctlPixelLocationOnTracker := fun _ => some ⟨0, 0⟩ }

/-- Second recording tick: stable, tracked, pixel sample (2, 4). -/
def inpC1b : TickInput :=
  { ctlInput 1 true with
    ctlIsCurrentlyTracking := true
    ctlPixelLocationOnTracker := fun _ => some ⟨2, 4⟩ }

/-- The state after both samples of the location have been appended. -/
def stC1final : CalibState := (update envC1 inpC1b (update envC1 inpC1a stC1).1).1

/-- C1: the claim says the stored averaged screen-space point equals the
component-wise arithmetic mean of the N appended samples.  On the code the
averaging loop of calibrationStepRecordPSMove reads
`screenSpacePoints[sampleCount]` — the fixed index of the last appended
sample — instead of the loop variable, so after appending (0,0) and then
(2,4) with N = 2 the stored "average" is (2,4), not the mean (1,2). -/
theorem C1_stored_average_is_last_sample :
    ((stC1final.m_psmoveTrackerPoseContexts 0).avgScreenSpacePointAtLocation 0) =
      PSMoveScreenLocation.create 2 4 ∧
    ((stC1final.m_psmoveTrackerPoseContexts 0).avgScreenSpacePointAtLocation 0) ≠
      PSMoveScreenLocation.create ((0 + 2) / 2) ((0 + 4) / 2) := by
  have h : ((stC1final.m_psmoveTrackerPoseContexts 0).avgScreenSpacePointAtLocation 0) =
      PSMoveScreenLocation.create 2 4 := by
    norm_num [stC1final, update, updateRecordPSMove, recordSampleForTracker, setState,
      onEnterState, envC1, inpC1a, inpC1b, stC1, initialCalibState,
      PS3EYETrackerPoseContext.zero, ctlInput, Function.update, List.range_succ,
      PSMoveFloatVector2.create, PSMoveScreenLocation.create, PSMoveFloatVector2.unsafe_divide,
      PSMoveScreenLocation.toPSMoveFloatVector2, floatVector2_add_def,
      k_mat_sample_location_count, HMDTrackerPoseContext.clear]
  refine ⟨h, ?_⟩
  rw [h]
  simp only [PSMoveScreenLocation.create, ne_eq, PSMoveScreenLocation.mk.injEq]
  norm_num

/-- An environment with one tracker and three samples per location. -/
def envC2 : Env := { envC1 with sampleCountN := 3 }

/-- A recording state as the claim's premise describes it: the session is at
mat location 2, locations 0 and 1 carry stored averaged points, and the
tracker has 1 of 3 samples at the current location. -/
def stC2 : CalibState :=
  { initialCalibState with
    m_menuState := .calibrationStepRecordPSMove
    m_sampleLocationIndex := 2
    m_psmoveTrackerPoseContexts := fun _ =>
      { PS3EYETrackerPoseContext.zero with
        screenSpacePointCount := 1
        avgScreenSpacePointAtLocation := fun l =>
          if l = 0 then ⟨11, 12⟩ else if l = 1 then ⟨21, 22⟩ else ⟨0, 0⟩ } }

/-- The state one tick later, after the stability signal went false. -/
def stC2after : CalibState := (update envC2 (ctlInput 0 false) stC2).1

/-- C2: the claim says that when the controller goes unstable mid-location,
the session returns to PlaceController discarding only the current
location's partial counts, leaving earlier locations' progress unchanged.
On the code, onEnterState(calibrationStepPlacePSMove) also resets
`m_sampleLocationIndex` to 0 (and clears the HMD context), so the progress
of the two already-completed locations is lost — the session will resample
from location 0 — even though their stored averaged points survive. -/
theorem C2_unstable_resets_location_progress :
    stC2after.m_menuState = .calibrationStepPlacePSMove ∧
    (stC2after.m_psmoveTrackerPoseContexts 0).screenSpacePointCount = 0 ∧
    stC2after.m_sampleLocationIndex = 0 ∧
    stC2.m_sampleLocationIndex = 2 ∧
    (stC2after.m_psmoveTrackerPoseContexts 0).avgScreenSpacePointAtLocation 0 = ⟨11, 12⟩ ∧
    (stC2after.m_psmoveTrackerPoseContexts 0).avgScreenSpacePointAtLocation 1 = ⟨21, 22⟩ ∧
    stC2after.m_hmdTrackerPoseContext.worldSpaceSampleCount = 0 :=
  ⟨rfl, rfl, rfl, rfl, rfl, rfl, rfl⟩

/-- An environment with one tracker and a single sample per location. -/
def envC3 : Env := { envC1 with sampleCountN := 1 }

/-- A recording state at the first mat location whose only tracker has
filled its sample buffer and stored the averaged point. -/
def stC3 : CalibState :=
  { initialCalibState with
    m_menuState := .calibrationStepRecordPSMove
    m_sampleLocationIndex := 0
    m_psmoveTrackerPoseContexts := fun _ =>
      { PS3EYETrackerPoseContext.zero with
        screenSpacePointCount := 1
        avgScreenSpacePointAtLocation := fun l => if l = 0 then ⟨5, 6⟩ else ⟨0, 0⟩ } }

/-- The state one tick later, after the controller was picked up (stability
signal false with sampling complete). -/
def stC3after : CalibState := (update envC3 (ctlInput 0 false) stC3).1

/-- C3: the claim says the session advances the mat-location index by one
and proceeds to sample the next (higher-indexed) location.  On the code the
index is incremented (to 1) but the transition re-enters
calibrationStepPlacePSMove, whose entry hook resets `m_sampleLocationIndex`
to 0 and zeroes all sample counts, so the session faces location 0 again
instead of location 1; consequently the index can never reach the
5-locations-done branch. -/
theorem C3_advance_is_undone_by_entry_reset :
    stC3after.m_menuState = .calibrationStepPlacePSMove ∧
    stC3after.m_sampleLocationIndex = 0 ∧
    (stC3after.m_psmoveTrackerPoseContexts 0).screenSpacePointCount = 0 :=
  ⟨rfl, rfl, rfl⟩

/-- The state stC3 placed (hypothetically) at the last mat location with its
sampling complete, in the environment without a head device. -/
def stC4 : CalibState := { stC3 with m_sampleLocationIndex := 4 }

/-- The result of the pick-up tick at the last location with no head device. -/
def stC4after : CalibState × List (ℕ × PSMovePose × PSMovePose) :=
  update envC3 (ctlInput 0 false) stC4

/-- C4: the claim says that with no head device the session is routed from
RecordController to the ComputePoses step and reaches Success having
reported one pose pair per tracker.  On the code (line 219) the no-HMD
branch jumps directly to calibrateStepSuccess: ComputePoses never runs, no
pose is reported, and the tracker's validity flag is still false.
(Moreover, by C3's reset the last location is unreachable in the first
place.)  The pick-up tick at location 0 in the same environment loops back
to PlaceController at location 0. -/
theorem C4_no_hmd_skips_compute_poses :
    (stC4after.1.m_menuState = .calibrateStepSuccess ∧
     stC4after.2 = [] ∧
     (stC4after.1.m_psmoveTrackerPoseContexts 0).bValidTrackerPose = false) ∧
    (stC3after.m_menuState = .calibrationStepPlacePSMove ∧
     stC3after.m_sampleLocationIndex = 0) :=
  ⟨⟨rfl, rfl, rfl⟩, ⟨rfl, rfl⟩⟩

/-- An environment with a head device configured. -/
def envC6 : Env := { envC1 with hmdPresent := true }

/-- A head-recording state with four identity-pose samples already recorded
(positions at the origin). -/
def stC6 : CalibState :=
  { initialCalibState with
    m_menuState := .calibrationStepRecordHMD
    m_hmdTrackerPoseContext :=
      { HMDTrackerPoseContext.clear with worldSpaceSampleCount := 4 } }

/-- The fifth head sample: stable, tracking, position (10, 0, 0). -/
def inpC6 : TickInput :=
  { ctlInput 0 false with
    hmdIsStableAndAlignedWithGravity := true
    hmdIsTracking := true
    hmdPose := ⟨k_psmove_quaternion_identity, ⟨10, 0, 0⟩⟩ }

/-- The state after the head buffer filled. -/
def stC6after : CalibState := (update envC6 inpC6 stC6).1

/-- C6: the claim says the stored averaged head position equals the
component-wise mean of the N recorded positions.  On the code the averaging
loop of calibrationStepRecordHMD reads `worldSpacePoints[sampleCount]` —
the fixed index of the last appended sample — so after recording four
samples at the origin and a fifth at (10,0,0) the stored "average" is
(10,0,0) rather than the mean (2,0,0); the orientation sum suffers the same
fixed-index read and is additionally seeded with the identity quaternion
rather than zero. -/
theorem C6_hmd_average_is_last_sample :
    stC6after.m_hmdTrackerPoseContext.avgHMDWorldSpacePoint = ⟨10, 0, 0⟩ ∧
    (⟨10, 0, 0⟩ : PSMovePosition) ≠
      ⟨(0 + 0 + 0 + 0 + 10) / 5, (0 + 0 + 0 + 0 + 0) / 5, (0 + 0 + 0 + 0 + 0) / 5⟩ ∧
    stC6after.m_menuState = .calibrationStepComputeTrackerPoses := by
  refine ⟨?_, ?_, rfl⟩
  · norm_num [stC6after, update, updateRecordHMD, setState, onEnterState, envC6, envC1,
      inpC6, stC6, initialCalibState, ctlInput, Function.update, List.range_succ,
      PSMoveFloatVector3.unsafe_divide, PSMoveFloatVector3.castToPSMovePosition,
      PSMovePosition.toPSMoveFloatVector3, floatVector3_add_def,
      k_psmove_float_vector3_zero, k_mat_sample_location_count, HMDTrackerPoseContext.clear,
      PS3EYETrackerPoseContext.zero, k_psmove_quaternion_identity]
    split <;> rfl
  · simp only [ne_eq, PSMovePosition.mk.injEq]
    norm_num

/-- C10: when the external perspective-pose solve fails for a tracker,
computeTrackerCameraPose sets the validity flag to false and returns false,
leaving the re-projection error, the tracking-space pose, the head-relative
pose and the sample buffers exactly as they were before the call. -/
theorem C10_solve_failure_preserves_fields (env : Env) (trackerIndex : ℕ) (M : Mat4)
    (d : PS3EYETrackerPoseContext)
    (h : env.solvePnP (cvObjectPoints env) (cvImagePoints env trackerIndex d)
      (env.trackerIntrinsicMatrix trackerIndex) cvDistCoeffs = none) :
    (computeTrackerCameraPose env trackerIndex M d).2 = false ∧
    (computeTrackerCameraPose env trackerIndex M d).1.bValidTrackerPose = false ∧
    (computeTrackerCameraPose env trackerIndex M d).1.reprojectionError = d.reprojectionError ∧
    (computeTrackerCameraPose env trackerIndex M d).1.trackerPose = d.trackerPose ∧
    (computeTrackerCameraPose env trackerIndex M d).1.hmdCameraRelativeTrackerPose =
      d.hmdCameraRelativeTrackerPose ∧
    (computeTrackerCameraPose env trackerIndex M d).1.screenSpacePoints = d.screenSpacePoints ∧
    (computeTrackerCameraPose env trackerIndex M d).1.screenSpacePointCount =
      d.screenSpacePointCount ∧
    (computeTrackerCameraPose env trackerIndex M d).1.avgScreenSpacePointAtLocation =
      d.avgScreenSpacePointAtLocation := by
  unfold computeTrackerCameraPose
  simp [h]

/-- An environment whose solver always fails. -/
def envC10 : Env := envC1

/-- A tracker context carrying sentinel values in the fields the failure
path must not overwrite. -/
def dC10 : PS3EYETrackerPoseContext :=
  { PS3EYETrackerPoseContext.zero with
    bValidTrackerPose := true
    reprojectionError := 7
    trackerPose := ⟨k_psmove_quaternion_identity, ⟨1, 2, 3⟩⟩
    hmdCameraRelativeTrackerPose := ⟨k_psmove_quaternion_identity, ⟨4, 5, 6⟩⟩ }

/-- Witness for C10 at a concrete failing solve. -/
theorem C10_solve_failure_preserves_fields_witness :
    envC10.solvePnP (cvObjectPoints envC10) (cvImagePoints envC10 0 dC10)
      (envC10.trackerIntrinsicMatrix 0) cvDistCoeffs = none ∧
    ((computeTrackerCameraPose envC10 0 1 dC10).2 = false ∧
     (computeTrackerCameraPose envC10 0 1 dC10).1.bValidTrackerPose = false ∧
     (computeTrackerCameraPose envC10 0 1 dC10).1.reprojectionError = dC10.reprojectionError ∧
     (computeTrackerCameraPose envC10 0 1 dC10).1.trackerPose = dC10.trackerPose ∧
     (computeTrackerCameraPose envC10 0 1 dC10).1.hmdCameraRelativeTrackerPose =
       dC10.hmdCameraRelativeTrackerPose ∧
     (computeTrackerCameraPose envC10 0 1 dC10).1.screenSpacePoints = dC10.screenSpacePoints ∧
     (computeTrackerCameraPose envC10 0 1 dC10).1.screenSpacePointCount =
       dC10.screenSpacePointCount ∧
     (computeTrackerCameraPose envC10 0 1 dC10).1.avgScreenSpacePointAtLocation =
       dC10.avgScreenSpacePointAtLocation) :=
  ⟨rfl, C10_solve_failure_preserves_fields envC10 0 1 dC10 rfl⟩

/-- C9: the composed controller-tracking-to-head-camera transform equals the
ordered product of (inverse of the head camera-to-tracking transform) ×
(rigid transform of the averaged head orientation and position) × (inverse
of the calibration-target offset transform); matrix application makes the
rightmost factor act first; the offset defaults to the identity pose at the
call site (computePosesTransform passes k_psmove_pose_identity), whose
rigid transform is the identity matrix with identity inverse. -/
theorem C9_transform_composition :
    (∀ (hmdTrackerPose psmoveCalibrationOffset : PSMovePose)
        (hctx : HMDTrackerPoseContext),
      computePSMoveTrackerToHMDTrackerSpaceTransform hmdTrackerPose
          psmoveCalibrationOffset hctx =
        matInv (psmove_pose_to_glm_mat4_ofPose hmdTrackerPose) *
          psmove_pose_to_glm_mat4 hctx.avgHMDWorldSpaceOrientation
            hctx.avgHMDWorldSpacePoint *
          matInv (psmove_pose_to_glm_mat4_ofPose psmoveCalibrationOffset)) ∧
    (∀ (A B C : Mat4) (v : Fin 4 → ℚ),
      (A * B * C).mulVec v = A.mulVec (B.mulVec (C.mulVec v))) ∧
    psmove_pose_to_glm_mat4_ofPose k_psmove_pose_identity = 1 ∧
    matInv 1 = 1 ∧
    (∀ (env : Env) (inp : TickInput) (s : CalibState), env.hmdPresent = true →
      computePosesTransform env inp s =
        computePSMoveTrackerToHMDTrackerSpaceTransform inp.hmdTrackerPose
          k_psmove_pose_identity s.m_hmdTrackerPoseContext) := by
  refine ⟨fun _ _ _ => rfl, ?_, ?_, ?_, ?_⟩
  · intro A B C v
    rw [← Matrix.mulVec_mulVec, ← Matrix.mulVec_mulVec]
  · apply Matrix.ext
    intro i j
    rcases i with ⟨i, hi⟩
    rcases j with ⟨j, hj⟩
    interval_cases i <;> interval_cases j <;>
      norm_num [psmove_pose_to_glm_mat4_ofPose, psmove_pose_to_glm_mat4,
        psmove_quaternion_to_mat3, k_psmove_pose_identity, k_psmove_quaternion_identity,
        Matrix.one_apply, Fin.ext_iff]
  · rw [matInv, Matrix.det_one, Matrix.adjugate_one, inv_one, one_smul]
  · intro env inp s h
    simp [computePosesTransform, h]

/-- Witness for C9 at a concrete head-present environment and state. -/
theorem C9_transform_composition_witness :
    envC6.hmdPresent = true ∧
    computePosesTransform envC6 inpC6 stC6 =
      computePSMoveTrackerToHMDTrackerSpaceTransform inpC6.hmdTrackerPose
        k_psmove_pose_identity stC6.m_hmdTrackerPoseContext ∧
    computePSMoveTrackerToHMDTrackerSpaceTransform inpC6.hmdTrackerPose
        k_psmove_pose_identity stC6.m_hmdTrackerPoseContext =
      matInv (psmove_pose_to_glm_mat4_ofPose inpC6.hmdTrackerPose) *
        psmove_pose_to_glm_mat4 stC6.m_hmdTrackerPoseContext.avgHMDWorldSpaceOrientation
          stC6.m_hmdTrackerPoseContext.avgHMDWorldSpacePoint *
        matInv (psmove_pose_to_glm_mat4_ofPose k_psmove_pose_identity) :=
  ⟨rfl, C9_transform_composition.2.2.2.2 envC6 inpC6 stC6 rfl,
    C9_transform_composition.1 inpC6.hmdTrackerPose k_psmove_pose_identity
      stC6.m_hmdTrackerPoseContext⟩

theorem sStart_le_self (sig : ℕ → Bool) : ∀ n, sStart sig n ≤ n := by
  intro n
  induction n with
  | zero => simp [sStart]
  | succ m ih =>
    by_cases h : sig m = true
    · simp [sStart, h]
      omega
    · simp [sStart, h]

theorem sStart_streak (sig : ℕ → Bool) :
    ∀ n, sig n = true → ∀ k, sStart sig n ≤ k → k ≤ n → sig k = true := by
  intro n
  induction n with
  | zero =>
    intro hs k hk1 hk2
    have : k = 0 := Nat.le_zero.mp hk2
    simpa [this] using hs
  | succ m ih =>
    intro hs k hk1 hk2
    by_cases hm : sig m = true
    · rcases Nat.lt_succ_iff_lt_or_eq.mp (Nat.lt_succ_of_le hk2) with h | h
      · by_cases hke : k = m + 1
        · simpa [hke] using hs
        · have hk2' : k ≤ m := by omega
          have hk1' : sStart sig m ≤ k := by
            simpa [sStart, hm] using hk1
          exact ih hm k hk1' hk2'
      · simpa [h] using hs
    · have : sStart sig (m + 1) = m + 1 := by simp [sStart, hm]
      have : k = m + 1 := by omega
      simpa [this] using hs

theorem sStart_min (sig : ℕ → Bool) :
    ∀ n j, (∀ m, j ≤ m → m ≤ n → sig m = true) → j ≤ n → sStart sig n ≤ j := by
  intro n
  induction n with
  | zero =>
    intro j _ hj
    rw [Nat.le_zero.mp hj]
    simp [sStart]
  | succ m ih =>
    intro j hstreak hj
    by_cases hjm : j ≤ m
    · have hm : sig m = true := hstreak m hjm (Nat.le_succ m)
      have : sStart sig m ≤ j :=
        ih j (fun k hk1 hk2 => hstreak k hk1 (Nat.le_succ_of_le hk2)) hjm
      simpa [sStart, hm] using this
    · have : j = m + 1 := by omega
      calc sStart sig (m + 1) ≤ m + 1 := sStart_le_self sig (m + 1)
        _ = j := this.symm

theorem obsState_fst (sig : ℕ → Bool) (tm : ℕ → ℚ) :
    ∀ n, (obsState sig tm (n + 1)).1 = sig n := by
  intro n
  cases h : sig n with
  | false =>
    cases h2 : (obsState sig tm n).1 <;>
      simp [obsState, stabilityObserve, h, h2]
  | true =>
    cases h2 : (obsState sig tm n).1
    · simp [obsState, stabilityObserve, h, h2]
    · by_cases hd : tm n - (obsState sig tm n).2 ≥ k_stabilize_wait_time_ms <;>
        simp [obsState, stabilityObserve, h, h2, hd]

theorem obsState_snd (sig : ℕ → Bool) (tm : ℕ → ℚ) :
    ∀ n, (obsState sig tm n).1 = true → (obsState sig tm n).2 = tm (sStart sig n) := by
  intro n
  induction n with
  | zero => intro h; simp [obsState] at h
  | succ m ih =>
    intro h
    have hsigm : sig m = true := by rw [← obsState_fst sig tm m]; exact h
    have hstart : sStart sig (m + 1) = sStart sig m := by simp [sStart, hsigm]
    cases h2 : (obsState sig tm m).1 with
    | true =>
      have heq : (obsState sig tm (m + 1)).2 = (obsState sig tm m).2 := by
        by_cases hd : tm m - (obsState sig tm m).2 ≥ k_stabilize_wait_time_ms <;>
          simp [obsState, stabilityObserve, hsigm, h2, hd]
      rw [heq, ih h2, hstart]
    | false =>
      have hm0 : sStart sig m = m := by
        cases m with
        | zero => simp [sStart]
        | succ l =>
          have hl : sig l = false := by
            have := obsState_fst sig tm l
            rw [h2] at this
            exact this.symm
          simp [sStart, hl]
      have heq : (obsState sig tm (m + 1)).2 = tm m := by
        simp [obsState, stabilityObserve, hsigm, h2]
      rw [heq, hstart, hm0]

theorem stabilityObserve_report_iff (f : Bool) (s now : ℚ) (g : Bool) :
    (stabilityObserve f s now g).2.2 = true ↔
      (g = true ∧ f = true ∧ now - s ≥ k_stabilize_wait_time_ms) := by
  cases g with
  | false => cases f <;> simp [stabilityObserve]
  | true =>
    cases f with
    | false => simp [stabilityObserve]
    | true =>
      by_cases hd : now - s ≥ k_stabilize_wait_time_ms <;>
        simp [stabilityObserve, hd, ge_iff_le]

/-- The pure stability iteration reports the dwell threshold at tick `n`
exactly when the signal has been continuously true for at least the dwell
duration. -/
theorem obsReport_iff (sig : ℕ → Bool) (tm : ℕ → ℚ)
    (hm : ∀ a b : ℕ, a ≤ b → tm a ≤ tm b) (n : ℕ) :
    obsReport sig tm n = true ↔ dwellSpecProp sig tm n := by
  rw [obsReport, stabilityObserve_report_iff]
  constructor
  · rintro ⟨hsig, hflag, hge⟩
    cases n with
    | zero => simp [obsState] at hflag
    | succ m =>
      refine ⟨hsig, sStart sig (m + 1), sStart_le_self sig (m + 1),
        fun k hk1 hk2 => sStart_streak sig (m + 1) hsig k hk1 hk2, ?_⟩
      rw [← obsState_snd sig tm (m + 1) hflag]
      exact hge
  · rintro ⟨hsig, j, hj, hstreak, hge⟩
    have h1 : sStart sig n ≤ j := sStart_min sig n j hstreak hj
    have h2 : tm (sStart sig n) ≤ tm j := hm _ _ h1
    have h3 : tm n - tm (sStart sig n) ≥ k_stabilize_wait_time_ms := by linarith
    have h4 : sStart sig n ≠ n := by
      intro he
      rw [he] at h3
      rw [k_stabilize_wait_time_ms] at h3
      linarith
    cases n with
    | zero => exact absurd (Nat.le_zero.mp (sStart_le_self sig 0)) h4
    | succ m =>
      have hsigm : sig m = true := by
        by_contra hc
        have hc' : sig m = false := by simpa using hc
        have : sStart sig (m + 1) = m + 1 := by simp [sStart, hc']
        exact h4 this
      have hflag : (obsState sig tm (m + 1)).1 = true := by
        rw [obsState_fst sig tm m]; exact hsigm
      refine ⟨hsig, hflag, ?_⟩
      rw [obsState_snd sig tm (m + 1) hflag]
      exact h3

theorem update_placePSMove (env : Env) (inp : TickInput) (s : CalibState)
    (h : s.m_menuState = .calibrationStepPlacePSMove) :
    (update env inp s).1 =
      (if (stabilityObserve s.m_bIsStable s.m_stableStartTime inp.now
            inp.ctlIsStableAndAlignedWithGravity).2.2 = true then
        { s with
          m_menuState := .calibrationStepRecordPSMove
          m_bIsStable := (stabilityObserve s.m_bIsStable s.m_stableStartTime inp.now
            inp.ctlIsStableAndAlignedWithGravity).1
          m_stableStartTime := (stabilityObserve s.m_bIsStable s.m_stableStartTime inp.now
            inp.ctlIsStableAndAlignedWithGravity).2.1 }
      else
        { s with
          m_bIsStable := (stabilityObserve s.m_bIsStable s.m_stableStartTime inp.now
            inp.ctlIsStableAndAlignedWithGravity).1
          m_stableStartTime := (stabilityObserve s.m_bIsStable s.m_stableStartTime inp.now
            inp.ctlIsStableAndAlignedWithGravity).2.1 }) := by
  obtain ⟨menu, flag, start, idx, ctx, hmd⟩ := s
  simp only [CalibState.m_menuState] at h
  subst h
  by_cases hr : (stabilityObserve flag start inp.now
      inp.ctlIsStableAndAlignedWithGravity).2.2 = true
  · simp [update, hr, setState, onEnterState]
  · simp [update, hr, setState, onEnterState]

theorem placeRun_eq (env : Env) (sig : ℕ → Bool) (tm : ℕ → ℚ) :
    ∀ n, (∀ k, k < n → obsReport sig tm k = false) →
      placeRun env sig tm n =
        { placeEntryState env with
          m_bIsStable := (obsState sig tm n).1
          m_stableStartTime := (obsState sig tm n).2 } := by
  intro n
  induction n with
  | zero => intro _; rfl
  | succ m ih =>
    intro hpre
    have hm := ih fun k hk => hpre k (Nat.lt_succ_of_lt hk)
    have hrep : obsReport sig tm m = false := hpre m (Nat.lt_succ_self m)
    show (update env (ctlInput (tm m) (sig m)) (placeRun env sig tm m)).1 = _
    rw [hm, update_placePSMove env _ _ rfl]
    have hrep' : (stabilityObserve
        ({ placeEntryState env with
            m_bIsStable := (obsState sig tm m).1
            m_stableStartTime := (obsState sig tm m).2 } : CalibState).m_bIsStable
        ({ placeEntryState env with
            m_bIsStable := (obsState sig tm m).1
            m_stableStartTime := (obsState sig tm m).2 } : CalibState).m_stableStartTime
        (ctlInput (tm m) (sig m)).now
        (ctlInput (tm m) (sig m)).ctlIsStableAndAlignedWithGravity).2.2 = false := hrep
    rw [if_neg (by rw [hrep']; exact Bool.false_ne_true)]
    rfl

/-- C5: in a placement step, the transition to the recording step fires
exactly at the first tick at which the stability signal has been
continuously true for at least the dwell duration (1000 ms), never before,
and a false signal fully resets the accumulated stable duration (the reset
is part of dwellSpecProp: only the streak containing the current tick
counts). -/
theorem C5_dwell_threshold (env : Env) (sig : ℕ → Bool) (tm : ℕ → ℚ)
    (hm : ∀ a b : ℕ, a ≤ b → tm a ≤ tm b) (n : ℕ)
    (hprev : ∀ k, k < n → ¬ dwellSpecProp sig tm k) :
    (placeRun env sig tm n).m_menuState = .calibrationStepPlacePSMove ∧
    ((placeRun env sig tm (n + 1)).m_menuState = .calibrationStepRecordPSMove ↔
      dwellSpecProp sig tm n) := by
  have hrepf : ∀ k, k < n → obsReport sig tm k = false := by
    intro k hk
    cases hb : obsReport sig tm k with
    | false => rfl
    | true => exact absurd ((obsReport_iff sig tm hm k).mp hb) (hprev k hk)
  have hn := placeRun_eq env sig tm n hrepf
  constructor
  · rw [hn]; rfl
  · show (update env (ctlInput (tm n) (sig n)) (placeRun env sig tm n)).1.m_menuState =
      _ ↔ _
    rw [hn, update_placePSMove env _ _ rfl]
    by_cases hr : obsReport sig tm n = true
    · have hr' : (stabilityObserve
          ({ placeEntryState env with
              m_bIsStable := (obsState sig tm n).1
              m_stableStartTime := (obsState sig tm n).2 } : CalibState).m_bIsStable
          ({ placeEntryState env with
              m_bIsStable := (obsState sig tm n).1
              m_stableStartTime := (obsState sig tm n).2 } : CalibState).m_stableStartTime
          (ctlInput (tm n) (sig n)).now
          (ctlInput (tm n) (sig n)).ctlIsStableAndAlignedWithGravity).2.2 = true := hr
      rw [if_pos hr']
      exact iff_of_true rfl ((obsReport_iff sig tm hm n).mp hr)
    · have hr' : ¬ (stabilityObserve
          ({ placeEntryState env with
              m_bIsStable := (obsState sig tm n).1
              m_stableStartTime := (obsState sig tm n).2 } : CalibState).m_bIsStable
          ({ placeEntryState env with
              m_bIsStable := (obsState sig tm n).1
              m_stableStartTime := (obsState sig tm n).2 } : CalibState).m_stableStartTime
          (ctlInput (tm n) (sig n)).now
          (ctlInput (tm n) (sig n)).ctlIsStableAndAlignedWithGravity).2.2 = true := hr
      rw [if_neg hr']
      refine iff_of_false (by intro hc; exact eMenuState.noConfusion hc)
        fun hd => hr ((obsReport_iff sig tm hm n).mpr hd)

/-- Witness for C5: constant-true signal at clock readings 0, 1000, 2000,
…; no tick before tick 1 satisfies the dwell condition, the machine is
still placing at tick 1, and the transition fires at tick 1, where the
signal has been continuously true for exactly 1000 ms. -/
theorem C5_dwell_threshold_witness :
    (∀ a b : ℕ, a ≤ b → (1000 * (a : ℚ)) ≤ 1000 * (b : ℚ)) ∧
    (∀ k, k < 1 → ¬ dwellSpecProp (fun _ => true) (fun j => 1000 * (j : ℚ)) k) ∧
    dwellSpecProp (fun _ => true) (fun j => 1000 * (j : ℚ)) 1 ∧
    ((placeRun envC1 (fun _ => true) (fun j => 1000 * (j : ℚ)) 1).m_menuState =
      .calibrationStepPlacePSMove ∧
     (placeRun envC1 (fun _ => true) (fun j => 1000 * (j : ℚ)) 2).m_menuState =
      .calibrationStepRecordPSMove) := by
  have hm : ∀ a b : ℕ, a ≤ b → (1000 * (a : ℚ)) ≤ 1000 * (b : ℚ) := by
    intro a b hab
    have : (a : ℚ) ≤ (b : ℚ) := by exact_mod_cast hab
    linarith
  have hp : ∀ k, k < 1 → ¬ dwellSpecProp (fun _ => true) (fun j => 1000 * (j : ℚ)) k := by
    intro k hk
    have hk0 : k = 0 := by omega
    subst hk0
    rintro ⟨_, j, hj, _, hge⟩
    have hj0 : j = 0 := by omega
    subst hj0
    rw [k_stabilize_wait_time_ms] at hge
    norm_num at hge
  have hd : dwellSpecProp (fun _ => true) (fun j => 1000 * (j : ℚ)) 1 := by
    refine ⟨rfl, 0, by omega, fun m _ _ => rfl, ?_⟩
    rw [k_stabilize_wait_time_ms]
    norm_num
  have hmain := C5_dwell_threshold envC1 (fun _ => true) (fun j => 1000 * (j : ℚ)) hm 1 hp
  exact ⟨hm, hp, hd, hmain.1, hmain.2.mpr hd⟩

theorem recordSampleForTracker_count_le (env : Env) (inp : TickInput) (l i : ℕ)
    (ctx : PS3EYETrackerPoseContext)
    (h : ctx.screenSpacePointCount ≤ env.sampleCountN) :
    (recordSampleForTracker env inp l i ctx).screenSpacePointCount ≤ env.sampleCountN := by
  unfold recordSampleForTracker
  cases hp : inp.ctlPixelLocationOnTracker i with
  | none => exact h
  | some p =>
    dsimp only
    split
    · rename_i hc
      split
      · dsimp only
        omega
      · dsimp only
        omega
    · exact h

theorem recordSampleForTracker_full (env : Env) (inp : TickInput) (l i : ℕ)
    (ctx : PS3EYETrackerPoseContext)
    (h : env.sampleCountN ≤ ctx.screenSpacePointCount) :
    recordSampleForTracker env inp l i ctx = ctx := by
  unfold recordSampleForTracker
  cases hp : inp.ctlPixelLocationOnTracker i with
  | none => rfl
  | some p =>
    dsimp only
    rw [if_neg fun hc => absurd hc.2 (by omega)]

theorem computeTrackerCameraPose_count (env : Env) (i : ℕ) (M : Mat4)
    (d : PS3EYETrackerPoseContext) :
    (computeTrackerCameraPose env i M d).1.screenSpacePointCount =
      d.screenSpacePointCount := by
  unfold computeTrackerCameraPose
  cases h : env.solvePnP (cvObjectPoints env) (cvImagePoints env i d)
      (env.trackerIntrinsicMatrix i) cvDistCoeffs with
  | none => simp [h]
  | some v =>
    obtain ⟨rv, tv⟩ := v
    simp [h]

theorem solveFold_count (env : Env) (M : Mat4) :
    ∀ (l : List ℕ) (acc : (ℕ → PS3EYETrackerPoseContext) × Bool) (i : ℕ),
      ((l.foldl (solveFoldStep env M) acc).1 i).screenSpacePointCount =
        (acc.1 i).screenSpacePointCount := by
  intro l
  induction l with
  | nil => intro acc i; rfl
  | cons a t ih =>
    intro acc i
    rw [List.foldl_cons, ih]
    unfold solveFoldStep
    by_cases h2 : acc.2 = true
    · simp only [h2, if_pos]
      rw [Function.update_apply]
      by_cases hia : i = a
      · subst hia
        simp [computeTrackerCameraPose_count]
      · simp [hia]
    · simp [h2]

/-- The inductive invariant of the calibration state machine used to settle
the sample-cap claims: sample counts never exceed the caps, and while the
session is placing or recording the controller the mat-location index is 0
(entering calibrationStepPlacePSMove resets it). -/
def CalibInv (env : Env) (s : CalibState) : Prop :=
  (∀ i, (s.m_psmoveTrackerPoseContexts i).screenSpacePointCount ≤ env.sampleCountN) ∧
  s.m_hmdTrackerPoseContext.worldSpaceSampleCount ≤ k_mat_sample_location_count ∧
  s.m_sampleLocationIndex ≤ k_mat_sample_location_count ∧
  ((s.m_menuState = .calibrationStepPlacePSMove ∨
    s.m_menuState = .calibrationStepRecordPSMove) → s.m_sampleLocationIndex = 0)

theorem CalibInv_enterPlace (env : Env) (s : CalibState)
    (hne : s.m_menuState ≠ .calibrationStepPlacePSMove)
    (hcounts : ∀ i, (s.m_psmoveTrackerPoseContexts i).screenSpacePointCount ≤
      env.sampleCountN) :
    CalibInv env (setState env s .calibrationStepPlacePSMove) := by
  unfold setState
  rw [if_neg fun he => hne he.symm]
  refine ⟨fun i => ?_, ?_, ?_, fun _ => rfl⟩
  · show ((if i < env.trackerCount then _ else _ :
      PS3EYETrackerPoseContext)).screenSpacePointCount ≤ env.sampleCountN
    by_cases hi : i < env.trackerCount
    · simp only [hi, if_pos]
      exact Nat.zero_le _
    · simp only [hi, if_neg, ite_false]
      exact hcounts i
  · exact Nat.zero_le _
  · exact Nat.zero_le _

theorem CalibInv_enterPlaceHMD (env : Env) (s : CalibState)
    (hne : s.m_menuState ≠ .calibrationStepPlaceHMD)
    (hcounts : ∀ i, (s.m_psmoveTrackerPoseContexts i).screenSpacePointCount ≤
      env.sampleCountN)
    (hidx : s.m_sampleLocationIndex ≤ k_mat_sample_location_count) :
    CalibInv env (setState env s .calibrationStepPlaceHMD) := by
  unfold setState
  rw [if_neg fun he => hne he.symm]
  exact ⟨hcounts, Nat.zero_le _, hidx, fun hc => by
    rcases hc with hc | hc <;> exact absurd hc (by intro h; exact eMenuState.noConfusion h)⟩

theorem CalibInv_setState_other (env : Env) (s : CalibState) (ns : eMenuState)
    (h : CalibInv env s) (henter : onEnterState env s ns = s)
    (hclause : (ns = .calibrationStepPlacePSMove ∨ ns = .calibrationStepRecordPSMove) →
      s.m_sampleLocationIndex = 0) :
    CalibInv env (setState env s ns) := by
  unfold setState
  by_cases he : ns = s.m_menuState
  · rw [if_pos he]
    exact h
  · rw [if_neg he, henter]
    exact ⟨h.1, h.2.1, h.2.2.1, hclause⟩

theorem CalibInv_update (env : Env) (inp : TickInput) (s : CalibState)
    (h : CalibInv env s) : CalibInv env (update env inp s).1 := by
  obtain ⟨menu, flag, start, idx, ctx, hmd⟩ := s
  obtain ⟨hcounts, hhmd, hidx, hloc⟩ := h
  cases menu with
  | initial =>
    exact CalibInv_enterPlace env _ (fun hq => eMenuState.noConfusion hq) hcounts
  | calibrationStepPlacePSMove =>
    rw [update_placePSMove env inp _ rfl]
    by_cases hb : (stabilityObserve flag start inp.now
        inp.ctlIsStableAndAlignedWithGravity).2.2 = true
    · rw [if_pos hb]
      exact ⟨hcounts, hhmd, hidx, fun _ => hloc (Or.inl rfl)⟩
    · rw [if_neg hb]
      exact ⟨hcounts, hhmd, hidx, fun _ => hloc (Or.inl rfl)⟩
  | calibrationStepRecordPSMove =>
    have hidx0 : idx = 0 := hloc (Or.inr rfl)
    subst hidx0
    show CalibInv env (updateRecordPSMove env inp _)
    unfold updateRecordPSMove
    dsimp only
    by_cases hneed : ((List.range env.trackerCount).any fun i =>
        decide ((ctx i).screenSpacePointCount < env.sampleCountN)) = true
    · rw [if_pos hneed]
      by_cases hstable : inp.ctlIsStableAndAlignedWithGravity = true
      · rw [if_pos hstable]
        refine ⟨fun i => ?_, hhmd, hidx, fun _ => rfl⟩
        dsimp only
        by_cases hi : i < env.trackerCount
        · rw [if_pos hi]
          exact recordSampleForTracker_count_le env inp 0 i (ctx i) (hcounts i)
        · rw [if_neg hi]
          exact hcounts i
      · rw [if_neg hstable]
        exact CalibInv_enterPlace env _ (fun hq => eMenuState.noConfusion hq) hcounts
    · rw [if_neg hneed]
      by_cases hstable : inp.ctlIsStableAndAlignedWithGravity = true
      · rw [if_neg (by simp [hstable])]
        exact ⟨hcounts, hhmd, hidx, fun _ => rfl⟩
      · rw [if_pos (by exact hstable)]
        rw [if_pos (by norm_num [k_mat_sample_location_count])]
        exact CalibInv_enterPlace env _ (fun hq => eMenuState.noConfusion hq) hcounts
  | calibrationStepPlaceHMD =>
    show CalibInv env
      (if (stabilityObserve flag start inp.now
          inp.hmdIsStableAndAlignedWithGravity).2.2 = true then _ else _)
    by_cases hb : (stabilityObserve flag start inp.now
        inp.hmdIsStableAndAlignedWithGravity).2.2 = true
    · rw [if_pos hb]
      refine CalibInv_setState_other env _ .calibrationStepRecordHMD
        ⟨hcounts, hhmd, hidx, fun hc => ?_⟩ rfl (fun hc => ?_) <;>
        rcases hc with hc | hc <;> exact eMenuState.noConfusion hc
    · rw [if_neg hb]
      refine ⟨hcounts, hhmd, hidx, fun hc => ?_⟩
      rcases hc with hc | hc <;> exact eMenuState.noConfusion hc
  | calibrationStepRecordHMD =>
    show CalibInv env (updateRecordHMD env inp _)
    unfold updateRecordHMD
    dsimp only
    by_cases hs : inp.hmdIsStableAndAlignedWithGravity = true
    · rw [if_pos hs]
      by_cases hg : inp.hmdIsTracking = true ∧
          hmd.worldSpaceSampleCount < k_mat_sample_location_count
      · rw [if_pos ⟨hg.1, hg.2⟩]
        by_cases hfull : hmd.worldSpaceSampleCount + 1 ≥ k_mat_sample_location_count
        · rw [if_pos hfull]
          refine CalibInv_setState_other env _ .calibrationStepComputeTrackerPoses
            ⟨hcounts, hg.2, hidx, fun hc => ?_⟩ rfl (fun hc => ?_) <;>
            rcases hc with hc | hc <;> exact eMenuState.noConfusion hc
        · rw [if_neg hfull]
          refine ⟨hcounts, hg.2, hidx, fun hc => ?_⟩
          rcases hc with hc | hc <;> exact eMenuState.noConfusion hc
      · rw [if_neg fun hg2 => hg ⟨hg2.1, hg2.2⟩]
        exact ⟨hcounts, hhmd, hidx, fun hc => by
          rcases hc with hc | hc <;> exact eMenuState.noConfusion hc⟩
    · rw [if_neg hs]
      exact CalibInv_enterPlaceHMD env _ (fun hq => eMenuState.noConfusion hq) hcounts hidx
  | calibrationStepComputeTrackerPoses =>
    show CalibInv env (updateComputeTrackerPoses env inp _).1
    unfold updateComputeTrackerPoses
    dsimp only
    set M := computePosesTransform env inp
      ⟨.calibrationStepComputeTrackerPoses, flag, start, idx, ctx, hmd⟩ with hM
    set res := (List.range env.trackerCount).foldl (solveFoldStep env M) (ctx, true) with hres
    have hcnt : ∀ i, (res.1 i).screenSpacePointCount ≤ env.sampleCountN := by
      intro i
      rw [hres, solveFold_count]
      exact hcounts i
    by_cases hbs : res.2 = true
    · rw [if_pos hbs]
      exact CalibInv_setState_other env
        ⟨.calibrationStepComputeTrackerPoses, flag, start, idx, res.1, hmd⟩
        .calibrateStepSuccess ⟨hcnt, hhmd, hidx, fun hc => by
          rcases hc with hc | hc <;> exact eMenuState.noConfusion hc⟩ rfl fun hc => by
          rcases hc with hc | hc <;> exact eMenuState.noConfusion hc
    · rw [if_neg hbs]
      exact CalibInv_setState_other env
        ⟨.calibrationStepComputeTrackerPoses, flag, start, idx, res.1, hmd⟩
        .calibrateStepFailed ⟨hcnt, hhmd, hidx, fun hc => by
          rcases hc with hc | hc <;> exact eMenuState.noConfusion hc⟩ rfl fun hc => by
          rcases hc with hc | hc <;> exact eMenuState.noConfusion hc
  | calibrateStepSuccess =>
    exact ⟨hcounts, hhmd, hidx, hloc⟩
  | calibrateStepFailed =>
    exact ⟨hcounts, hhmd, hidx, hloc⟩

theorem reachable_CalibInv (env : Env) : ∀ s, Reachable env s → CalibInv env s := by
  intro s h
  induction h with
  | init => exact ⟨fun _ => Nat.zero_le _, Nat.zero_le _, Nat.zero_le _, fun _ => rfl⟩
  | step inp hr ih => exact CalibInv_update env inp _ ih
  | restart hr ih =>
    exact CalibInv_setState_other env _ .initial ih rfl fun hc => by
      rcases hc with hc | hc <;> exact eMenuState.noConfusion hc

/-- C7: in every reachable state the per-tracker 2D sample count never
exceeds N (`sampleCountN`), the head sample count and the mat-location
index never exceed the 5-location cap; and an attempted append to an
already-full buffer — a further 2D sample for a full (tracker, location)
buffer, or a head sample with the head buffer full — leaves the buffer and
its count unchanged. -/
theorem C7_caps_and_full_buffer_noop (env : Env) :
    (∀ s, Reachable env s →
      (∀ i, (s.m_psmoveTrackerPoseContexts i).screenSpacePointCount ≤ env.sampleCountN) ∧
      s.m_hmdTrackerPoseContext.worldSpaceSampleCount ≤ k_mat_sample_location_count ∧
      s.m_sampleLocationIndex ≤ k_mat_sample_location_count) ∧
    (∀ inp s i, s.m_menuState = .calibrationStepRecordPSMove →
      inp.ctlIsStableAndAlignedWithGravity = true →
      (s.m_psmoveTrackerPoseContexts i).screenSpacePointCount = env.sampleCountN →
      (update env inp s).1.m_psmoveTrackerPoseContexts i =
        s.m_psmoveTrackerPoseContexts i) ∧
    (∀ inp s, s.m_menuState = .calibrationStepRecordHMD →
      inp.hmdIsStableAndAlignedWithGravity = true →
      s.m_hmdTrackerPoseContext.worldSpaceSampleCount = k_mat_sample_location_count →
      (update env inp s).1.m_hmdTrackerPoseContext = s.m_hmdTrackerPoseContext) := by
  refine ⟨?_, ?_, ?_⟩
  · intro s hs
    have h := reachable_CalibInv env s hs
    exact ⟨h.1, h.2.1, h.2.2.1⟩
  · intro inp s i hmenu hstable hcnt
    obtain ⟨menu, flag, start, idx, ctx, hmd⟩ := s
    simp only [CalibState.m_menuState] at hmenu
    subst hmenu
    simp only [CalibState.m_psmoveTrackerPoseContexts] at hcnt ⊢
    show (updateRecordPSMove env inp _).m_psmoveTrackerPoseContexts i = ctx i
    unfold updateRecordPSMove
    dsimp only
    by_cases hneed : ((List.range env.trackerCount).any fun j =>
        decide ((ctx j).screenSpacePointCount < env.sampleCountN)) = true
    · rw [if_pos hneed, if_pos hstable]
      dsimp only
      by_cases hi : i < env.trackerCount
      · rw [if_pos hi]
        exact recordSampleForTracker_full env inp idx i (ctx i) (le_of_eq hcnt.symm)
      · rw [if_neg hi]
    · rw [if_neg hneed, if_neg (by simp [hstable])]
  · intro inp s hmenu hstable hcnt
    obtain ⟨menu, flag, start, idx, ctx, hmd⟩ := s
    simp only [CalibState.m_menuState] at hmenu
    subst hmenu
    simp only [CalibState.m_hmdTrackerPoseContext] at hcnt ⊢
    show (updateRecordHMD env inp _).m_hmdTrackerPoseContext = hmd
    unfold updateRecordHMD
    dsimp only
    rw [if_pos hstable, if_neg fun hg => absurd hg.2 (by omega)]

/-- A head-recording state whose head buffer is already full. -/
def stC7h : CalibState :=
  { initialCalibState with
    m_menuState := .calibrationStepRecordHMD
    m_hmdTrackerPoseContext :=
      { HMDTrackerPoseContext.clear with worldSpaceSampleCount := 5 } }

/-- Witness for C7: the bound at the initial reachable state, a full-buffer
2D append attempt that leaves the tracker context unchanged, and a
full-buffer head append attempt that leaves the head context unchanged. -/
theorem C7_caps_and_full_buffer_noop_witness :
    (initialCalibState.m_psmoveTrackerPoseContexts 0).screenSpacePointCount ≤
      envC1.sampleCountN ∧
    stC3.m_menuState = .calibrationStepRecordPSMove ∧
    inpC1a.ctlIsStableAndAlignedWithGravity = true ∧
    (stC3.m_psmoveTrackerPoseContexts 0).screenSpacePointCount = envC3.sampleCountN ∧
    (update envC3 inpC1a stC3).1.m_psmoveTrackerPoseContexts 0 =
      stC3.m_psmoveTrackerPoseContexts 0 ∧
    stC7h.m_menuState = .calibrationStepRecordHMD ∧
    stC7h.m_hmdTrackerPoseContext.worldSpaceSampleCount = k_mat_sample_location_count ∧
    (update envC6 inpC6 stC7h).1.m_hmdTrackerPoseContext = stC7h.m_hmdTrackerPoseContext :=
  ⟨((C7_caps_and_full_buffer_noop envC1).1 initialCalibState Reachable.init).1 0,
   rfl, rfl, rfl,
   (C7_caps_and_full_buffer_noop envC3).2.1 inpC1a stC3 0 rfl rfl rfl,
   rfl, rfl,
   (C7_caps_and_full_buffer_noop envC6).2.2 inpC6 stC7h rfl rfl rfl⟩

theorem solveFoldStep_pos (env : Env) (M : Mat4)
    (acc : (ℕ → PS3EYETrackerPoseContext) × Bool) (a : ℕ) (h : acc.2 = true) :
    solveFoldStep env M acc a =
      (Function.update acc.1 a (computeTrackerCameraPose env a M (acc.1 a)).1,
       acc.2 && (computeTrackerCameraPose env a M (acc.1 a)).2) := by
  unfold solveFoldStep
  rw [if_pos h]

theorem solveFoldStep_neg (env : Env) (M : Mat4)
    (acc : (ℕ → PS3EYETrackerPoseContext) × Bool) (a : ℕ) (h : acc.2 = false) :
    solveFoldStep env M acc a = acc := by
  unfold solveFoldStep
  rw [if_neg (by rw [h]; exact Bool.false_ne_true)]

theorem solveFold_spec (env : Env) (M : Mat4) (orig : ℕ → PS3EYETrackerPoseContext) :
    ∀ n,
      (((List.range n).foldl (solveFoldStep env M) (orig, true)).2 = true ↔
        ∀ j, j < n → (computeTrackerCameraPose env j M (orig j)).2 = true) ∧
      (∀ i, ((List.range n).foldl (solveFoldStep env M) (orig, true)).1 i =
        (if i < n ∧ (∀ j, j < i → (computeTrackerCameraPose env j M (orig j)).2 = true) then
          (computeTrackerCameraPose env i M (orig i)).1
        else orig i)) := by
  intro n
  induction n with
  | zero =>
    constructor
    · simp
    · intro i
      rw [if_neg fun hc => Nat.not_lt_zero i hc.1]
      rfl
  | succ m ih =>
    obtain ⟨ih2, ih1⟩ := ih
    have hfold : (List.range (m + 1)).foldl (solveFoldStep env M) (orig, true) =
        solveFoldStep env M ((List.range m).foldl (solveFoldStep env M) (orig, true)) m := by
      rw [List.range_succ, List.foldl_append, List.foldl_cons, List.foldl_nil]
    by_cases hall : ∀ j, j < m → (computeTrackerCameraPose env j M (orig j)).2 = true
    · have hsnd : ((List.range m).foldl (solveFoldStep env M) (orig, true)).2 = true :=
        ih2.mpr hall
      have hfst : ((List.range m).foldl (solveFoldStep env M) (orig, true)).1 m = orig m := by
        rw [ih1 m, if_neg fun hc => Nat.lt_irrefl m hc.1]
      constructor
      · rw [hfold, solveFoldStep_pos env M _ m hsnd]
        dsimp only
        rw [hsnd, hfst, Bool.true_and]
        constructor
        · intro hok j hj
          rcases Nat.lt_succ_iff_lt_or_eq.mp hj with hlt | heq
          · exact hall j hlt
          · rw [heq]; exact hok
        · intro hok
          exact hok m (Nat.lt_succ_self m)
      · intro i
        rw [hfold, solveFoldStep_pos env M _ m hsnd]
        dsimp only
        rw [Function.update_apply]
        by_cases hieq : i = m
        · subst hieq
          rw [if_pos rfl, hfst, if_pos ⟨Nat.lt_succ_self i, hall⟩]
        · rw [if_neg hieq, ih1 i]
          by_cases hc : i < m ∧
              (∀ j, j < i → (computeTrackerCameraPose env j M (orig j)).2 = true)
          · rw [if_pos hc, if_pos ⟨Nat.lt_succ_of_lt hc.1, hc.2⟩]
          · rw [if_neg hc, if_neg fun hc2 => hc ⟨by omega, hc2.2⟩]
    · have hsnd : ((List.range m).foldl (solveFoldStep env M) (orig, true)).2 = false := by
        cases hb : ((List.range m).foldl (solveFoldStep env M) (orig, true)).2 with
        | false => rfl
        | true => exact absurd (ih2.mp hb) hall
      have hstep : (List.range (m + 1)).foldl (solveFoldStep env M) (orig, true) =
          (List.range m).foldl (solveFoldStep env M) (orig, true) := by
        rw [hfold, solveFoldStep_neg env M _ m hsnd]
      constructor
      · rw [hstep]
        refine iff_of_false (by rw [hsnd]; exact Bool.false_ne_true)
          fun hok => hall fun j hj => hok j (Nat.lt_succ_of_lt hj)
      · intro i
        rw [hstep, ih1 i]
        by_cases hc : i < m ∧
            (∀ j, j < i → (computeTrackerCameraPose env j M (orig j)).2 = true)
        · rw [if_pos hc, if_pos ⟨Nat.lt_succ_of_lt hc.1, hc.2⟩]
        · rw [if_neg hc, if_neg fun hc2 => ?_]
          rcases Nat.lt_succ_iff_lt_or_eq.mp hc2.1 with hlt | heq
          · exact hc ⟨hlt, hc2.2⟩
          · exact hall (heq ▸ hc2.2)

theorem prefixOK_iff (env : Env) (M : Mat4) (s : CalibState) (i : ℕ) :
    prefixOK env M s i = true ↔ ∀ j, j < i → solveOK env M s j = true := by
  unfold prefixOK
  rw [List.all_eq_true]
  constructor
  · intro h j hj
    exact h j (List.mem_range.mpr hj)
  · intro h j hj
    exact h j (List.mem_range.mp hj)

/-- C8 (amended): in the ComputePoses step the solve loop runs over the
configured trackers in index order only while every earlier tracker's solve
succeeded (`bSuccess && iter != end` stops at the first failure, leaving the
remaining trackers' data untouched); if every tracker solves, both poses of
every tracker are reported and the session transitions to Success; if any
solve fails, the session transitions to Failed with no pose reported. -/
theorem C8_short_circuit_solve (env : Env) (inp : TickInput) (s : CalibState)
    (h : s.m_menuState = .calibrationStepComputeTrackerPoses) :
    (∀ i, i < env.trackerCount →
      (update env inp s).1.m_psmoveTrackerPoseContexts i =
        (if prefixOK env (computePosesTransform env inp s) s i = true then
          (computeTrackerCameraPose env i (computePosesTransform env inp s)
            (s.m_psmoveTrackerPoseContexts i)).1
        else s.m_psmoveTrackerPoseContexts i)) ∧
    (prefixOK env (computePosesTransform env inp s) s env.trackerCount = true →
      (update env inp s).1.m_menuState = .calibrateStepSuccess ∧
      (update env inp s).2 = ((List.range env.trackerCount).map fun i =>
        (i, ((computeTrackerCameraPose env i (computePosesTransform env inp s)
              (s.m_psmoveTrackerPoseContexts i)).1).trackerPose,
         ((computeTrackerCameraPose env i (computePosesTransform env inp s)
              (s.m_psmoveTrackerPoseContexts i)).1).hmdCameraRelativeTrackerPose))) ∧
    (prefixOK env (computePosesTransform env inp s) s env.trackerCount = false →
      (update env inp s).1.m_menuState = .calibrateStepFailed ∧
      (update env inp s).2 = []) := by
  obtain ⟨menu, flag, start, idx, ctx, hmd⟩ := s
  simp only [CalibState.m_menuState] at h
  subst h
  set S : CalibState :=
    ⟨.calibrationStepComputeTrackerPoses, flag, start, idx, ctx, hmd⟩ with hS
  set M := computePosesTransform env inp S with hM
  have hspec := solveFold_spec env M ctx env.trackerCount
  have hctx : (update env inp S).1.m_psmoveTrackerPoseContexts =
      ((List.range env.trackerCount).foldl (solveFoldStep env M) (ctx, true)).1 := by
    show (updateComputeTrackerPoses env inp S).1.m_psmoveTrackerPoseContexts = _
    unfold updateComputeTrackerPoses
    dsimp only
    by_cases hbs : ((List.range env.trackerCount).foldl
        (solveFoldStep env M) (ctx, true)).2 = true
    · rw [if_pos hbs]
      rfl
    · rw [if_neg hbs]
      rfl
  refine ⟨?_, ?_, ?_⟩
  · intro i hi
    rw [show (update env inp S).1.m_psmoveTrackerPoseContexts i =
        ((List.range env.trackerCount).foldl (solveFoldStep env M) (ctx, true)).1 i from
      congrFun hctx i, hspec.2 i]
    by_cases hpre : prefixOK env M S i = true
    · rw [if_pos hpre, if_pos ⟨hi, fun j hj =>
        show (computeTrackerCameraPose env j M (ctx j)).2 = true from
          (prefixOK_iff env M S i).mp hpre j hj⟩]
    · rw [if_neg hpre, if_neg fun hc => hpre ((prefixOK_iff env M S i).mpr
        fun j hj => hc.2 j hj)]
  · intro hpre
    have hallok : ∀ j, j < env.trackerCount →
        (computeTrackerCameraPose env j M (ctx j)).2 = true :=
      fun j hj => (prefixOK_iff env M S env.trackerCount).mp hpre j hj
    have hbs : ((List.range env.trackerCount).foldl
        (solveFoldStep env M) (ctx, true)).2 = true := hspec.1.mpr hallok
    constructor
    · show (updateComputeTrackerPoses env inp S).1.m_menuState = _
      unfold updateComputeTrackerPoses
      dsimp only
      rw [if_pos hbs]
      rfl
    · show (updateComputeTrackerPoses env inp S).2 = _
      unfold updateComputeTrackerPoses
      dsimp only
      rw [if_pos hbs, if_pos hbs]
      dsimp only
      refine List.map_congr_left fun i hi => ?_
      have hi' : i < env.trackerCount := List.mem_range.mp hi
      rw [hspec.2 i, if_pos ⟨hi', fun j hj => hallok j (lt_trans hj hi')⟩]
  · intro hpre
    have hbs : ((List.range env.trackerCount).foldl
        (solveFoldStep env M) (ctx, true)).2 = false := by
      cases hb : ((List.range env.trackerCount).foldl
          (solveFoldStep env M) (ctx, true)).2 with
      | false => rfl
      | true =>
        have : prefixOK env M S env.trackerCount = true :=
          (prefixOK_iff env M S env.trackerCount).mpr fun j hj =>
            show solveOK env M S j = true from hspec.1.mp hb j hj
        rw [this] at hpre
        exact Bool.noConfusion hpre
    constructor
    · show (updateComputeTrackerPoses env inp S).1.m_menuState = _
      unfold updateComputeTrackerPoses
      dsimp only
      rw [if_neg (by rw [hbs]; exact Bool.false_ne_true)]
      rfl
    · show (updateComputeTrackerPoses env inp S).2 = _
      unfold updateComputeTrackerPoses
      dsimp only
      rw [if_neg (by rw [hbs]; exact Bool.false_ne_true),
        if_neg (by rw [hbs]; exact Bool.false_ne_true)]

/-- A two-tracker environment whose perspective-pose solver always fails. -/
def envC8 : Env := { envC1 with trackerCount := 2, sampleCountN := 5 }

/-- A ComputePoses state whose tracker contexts carry a sentinel validity
flag, so that an untouched context is distinguishable from a processed
one. -/
def stC8 : CalibState :=
  { initialCalibState with
    m_menuState := .calibrationStepComputeTrackerPoses
    m_psmoveTrackerPoseContexts := fun _ =>
      { PS3EYETrackerPoseContext.zero with bValidTrackerPose := true } }

/-- C8 counterexample: the claim says the pose solver is run for every
configured tracker.  With two trackers whose solves would both fail, the
loop condition `bSuccess && iter != end` stops after tracker 0, so tracker
1's context is never written: its validity flag still holds the sentinel
`true` after the tick, although running computeTrackerCameraPose on it
would store `false`.  The session transitions to Failed with no report. -/
theorem C8_short_circuit_solve_counterexample :
    ((update envC8 (ctlInput 0 false) stC8).1.m_psmoveTrackerPoseContexts 1).bValidTrackerPose
      = true ∧
    ((computeTrackerCameraPose envC8 1 (computePosesTransform envC8 (ctlInput 0 false) stC8)
        (stC8.m_psmoveTrackerPoseContexts 1)).1).bValidTrackerPose = false ∧
    ((update envC8 (ctlInput 0 false) stC8).1.m_psmoveTrackerPoseContexts 0).bValidTrackerPose
      = false ∧
    (update envC8 (ctlInput 0 false) stC8).1.m_menuState = .calibrateStepFailed ∧
    (update envC8 (ctlInput 0 false) stC8).2 = [] :=
  ⟨rfl, rfl, rfl, rfl, rfl⟩

/-- Witness for C8 at the concrete two-tracker failing environment: the
prefix of successful solves is empty, the session fails with no report, and
tracker 1 keeps its pre-tick context because tracker 0's solve failed. -/
theorem C8_short_circuit_solve_witness :
    stC8.m_menuState = .calibrationStepComputeTrackerPoses ∧
    prefixOK envC8 (computePosesTransform envC8 (ctlInput 0 false) stC8) stC8
      envC8.trackerCount = false ∧
    (update envC8 (ctlInput 0 false) stC8).1.m_menuState = .calibrateStepFailed ∧
    (update envC8 (ctlInput 0 false) stC8).2 = [] ∧
    (update envC8 (ctlInput 0 false) stC8).1.m_psmoveTrackerPoseContexts 1 =
      (if prefixOK envC8 (computePosesTransform envC8 (ctlInput 0 false) stC8) stC8 1 = true then
        (computeTrackerCameraPose envC8 1 (computePosesTransform envC8 (ctlInput 0 false) stC8)
          (stC8.m_psmoveTrackerPoseContexts 1)).1
      else stC8.m_psmoveTrackerPoseContexts 1) := by
  have hm := C8_short_circuit_solve envC8 (ctlInput 0 false) stC8 rfl
  have hpf : prefixOK envC8 (computePosesTransform envC8 (ctlInput 0 false) stC8) stC8
      envC8.trackerCount = false := rfl
  exact ⟨rfl, hpf, (hm.2.2 hpf).1, (hm.2.2 hpf).2, hm.1 1 (by norm_num [envC8, envC1])⟩
